import Mathlib

/-!
Verification of the DreamCanvas+ pipeline (`src/app.py`).

The file shallowly embeds the pipeline of `app.py`: the Hugging Face
helper calls (`hf_text_generation`, `hf_tts`), the image helpers
(`get_caption`, `infer_emotion_from_color`), the story and description
composers, the video composer (`generate_final_video`), and the
module-level Streamlit run that sequences them.  External effects are
made explicit: HTTP responses become response records supplied as
inputs, the filesystem becomes a map from paths to byte lists, and
user-visible warnings are collected in lists.
-/

namespace DreamCanvas

/-- A response to a `requests.post` call for text generation, as
`hf_text_generation` observes it: the HTTP status code and the result of
the parse `response.json()[0]["generated_text"]` (`none` models the
parse raising, which the bare `except:` catches). -/
structure HFTextResponse where
  status : Nat
  parsed : Option String
deriving Repr, DecidableEq

/-- A response to the TTS `requests.post` call in `hf_tts`: status code
and raw body bytes (`response.content`). -/
structure HFTTSResponse where
  status : Nat
  content : List Nat
deriving Repr, DecidableEq

/-- Result of a text-generation helper call: the returned string plus
the `st.warning` messages it emitted. -/
structure TextGenResult where
  text : String
  warnings : List String
deriving Repr, DecidableEq

/-- `hf_text_generation` (app.py lines 22-37): on HTTP 200 return the
parsed generated text, falling back to the prompt if parsing raises (the
bare `except` branch, which emits no warning); on any other status emit
a warning and return the prompt. -/
def hf_text_generation (prompt : String) (resp : HFTextResponse) : TextGenResult :=
  if resp.status = 200 then
    match resp.parsed with
    | some t => ⟨t, []⟩
    | none => ⟨prompt, []⟩
  else
    ⟨prompt, ["⚠️ HF text gen failed: " ++ toString resp.status]⟩

/-- The filesystem as the pipeline sees it: a map from path to file
bytes, `none` meaning the path does not exist. -/
def FileSystem : Type := String → Option (List Nat)

/-- `open(path, "wb")` followed by `f.write(data)`. -/
def writeFile (fs : FileSystem) (path : String) (data : List Nat) : FileSystem :=
  fun p => if p = path then some data else fs p

/-- Outcome of a `hf_tts` call: the returned value (`some output_path`
or the unavailable signal `none`), the filesystem after the call, and
the warnings emitted. -/
structure TTSOutcome where
  result : Option String
  fs : FileSystem
  warnings : List String

/-- Default `output_path` parameter of `hf_tts` (app.py line 40). -/
def hf_tts_default_output_path : String := "outputs/audio.wav"

/-- `hf_tts` (app.py lines 40-54): on HTTP 200 write the response bytes
to `output_path` and return the path; otherwise emit a warning and
return `None`, leaving the filesystem untouched. -/
def hf_tts (_text : String) (resp : HFTTSResponse) (fs : FileSystem)
    (output_path : String) : TTSOutcome :=
  if resp.status = 200 then
    ⟨some output_path, writeFile fs output_path resp.content, []⟩
  else
    ⟨none, fs, ["⚠️ HF TTS failed: " ++ toString resp.status]⟩

/-- An uploaded drawing as the app receives it: `uploaded.name` and the
bytes `uploaded.read()` returns.  `get_caption` receives the decoded
image but never inspects it. -/
structure DrawingImage where
  name : String
  content : List Nat
deriving Repr, DecidableEq

/-- The fixed prompt `get_caption` sends (app.py line 63). -/
def caption_prompt : String := "Describe this drawing: "

/-- `get_caption` (app.py lines 59-63): ignores its image argument and
delegates to `hf_text_generation` on the fixed prompt.  The
text-generation capability is modelled as an oracle from the issued
prompt to the HTTP response. -/
def get_caption (_image : DrawingImage) (capability : String → HFTextResponse) :
    TextGenResult :=
  hf_text_generation caption_prompt (capability caption_prompt)

/-- `infer_emotion_from_color` (app.py lines 77-89): ordered threshold
rules on the `(r, g, b)` triple, first match wins, with a mandatory
final `else`. -/
def infer_emotion_from_color (color : Nat × Nat × Nat) : String :=
  let r := color.1
  let g := color.2.1
  let b := color.2.2
  if r > 200 ∧ g < 100 then "excited"
  else if b > 150 then "calm"
  else if g > 150 then "happy"
  else "neutral"

/-- The fixed emotion vocabulary of `infer_emotion_from_color`. -/
def emotion_vocabulary : List String := ["excited", "calm", "happy", "neutral"]

/-- The story prompt template of `generate_story` (app.py line 96). -/
def story_prompt (caption emotion : String) : String :=
  "Create a short children\x27s story inspired by this caption: \x27" ++ caption ++
    "\x27 with emotion \x27" ++ emotion ++ "\x27"

/-- `generate_story` (app.py lines 92-97): build the prompt and delegate
to `hf_text_generation`. -/
def generate_story (caption emotion : String) (capability : String → HFTextResponse) :
    TextGenResult :=
  hf_text_generation (story_prompt caption emotion)
    (capability (story_prompt caption emotion))

/-- Python `str.split` with separator newline on a character list:
`"".split` gives `[""]`, a trailing newline yields a final empty
piece. -/
def splitLines : List Char → List (List Char)
  | [] => [[]]
  | c :: cs =>
    if c = '\n' then [] :: splitLines cs
    else
      match splitLines cs with
      | [] => [[c]]
      | l :: ls => (c :: l) :: ls

/-- Python `s.split("\n")` on a string. -/
def py_split_newline (s : String) : List String :=
  (splitLines s.data).map (fun l => String.mk l)

/-- Strip leading whitespace characters from a character list. -/
def py_lstrip : List Char → List Char
  | [] => []
  | c :: cs => if c.isWhitespace then py_lstrip cs else c :: cs

/-- Python `str.strip` with no argument: remove leading and trailing
whitespace. -/
def py_strip (s : String) : String :=
  String.mk ((py_lstrip (py_lstrip s.data).reverse).reverse)

/-- Python `str.capitalize`: first character uppercased, the rest
lowercased. -/
def py_capitalize (s : String) : String :=
  match s.data with
  | [] => ""
  | c :: cs => String.mk (c.toUpper :: cs.map Char.toLower)

/-- The summary computation `story.strip().split("\n")[0]` of
`auto_generate_description` (app.py line 101); the indexing `[0]` is a
fallible operation (`none` models an `IndexError`). -/
def story_summary (story : String) : Option String :=
  (py_split_newline (py_strip story)).head?

/-- The description template of `auto_generate_description` (app.py
lines 102-111) with the summary substituted in, after the final
`.strip()`. -/
def description_block (caption emotion summary : String) : String :=
  "✨ Dive into a magical tale born from a child’s imagination!\n\n🎨 Drawing inspired: \"" ++
    caption ++ "\"\n🎭 Emotion detected: " ++ py_capitalize emotion ++
    "\n📖 Story Summary: " ++ summary ++
    "\n\n🧒 Voice generated using Hugging Face TTS.\n🎬 Video created with DreamCanvas+: GenAI-powered storytelling from kids\x27 art."

/-- `auto_generate_description` (app.py lines 100-111): take the first
line of the stripped story as summary and format the block; `none`
models the only way the function could raise, an `IndexError` on the
`[0]`. -/
def auto_generate_description (caption emotion story : String) : Option String :=
  match story_summary story with
  | none => none
  | some summary => some (description_block caption emotion summary)

/-- A moviepy `AudioFileClip`: the audio file path it wraps and its
duration in seconds. -/
structure AudioClipT where
  path : String
  duration : ℚ
deriving Repr, DecidableEq

/-- A moviepy `ImageClip` as `generate_final_video` manipulates it:
source image path, an optional set duration and an optional attached
audio clip. -/
structure ImageClipT where
  imagePath : String
  duration : Option ℚ
  audio : Option AudioClipT
deriving DecidableEq

/-- `ImageClip(image_path)`: a clip with no duration or audio set. -/
def ImageClip (path : String) : ImageClipT := ⟨path, none, none⟩

/-- `clip.set_duration(d)`. -/
def set_duration (c : ImageClipT) (d : ℚ) : ImageClipT :=
  ⟨c.imagePath, some d, c.audio⟩

/-- `clip.set_audio(a)`. -/
def set_audio (c : ImageClipT) (a : AudioClipT) : ImageClipT :=
  ⟨c.imagePath, c.duration, some a⟩

/-- The file `clip.write_videofile(path, fps)` encodes: the written
clip, the output path, and the frame rate passed. -/
structure WrittenVideo where
  path : String
  clip : ImageClipT
  fps : Nat
deriving DecidableEq

/-- `clip.write_videofile(output_path, fps=24)` as a pure record of the
encode. -/
def write_videofile (c : ImageClipT) (path : String) (fps : Nat) : WrittenVideo :=
  ⟨path, c, fps⟩

/-- Default `output_path` parameter of `generate_final_video` (app.py
line 114). -/
def generate_final_video_default_output_path : String := "outputs/final_video.mp4"

/-- `generate_final_video` (app.py lines 114-122): load the audio clip,
build an image clip with duration equal to the audio clip's duration,
attach the audio, encode at `fps=24`, return the output path.
`loadAudio` models `AudioFileClip` reading the audio file at a path. -/
def generate_final_video (loadAudio : String → AudioClipT)
    (image_path audio_path output_path : String) : WrittenVideo × String :=
  let audio_clip := loadAudio audio_path
  let image_clip := set_audio (set_duration (ImageClip image_path) audio_clip.duration)
    audio_clip
  (write_videofile image_clip output_path 24, output_path)

/-- The external capabilities one run consumes: the text-generation
oracle (response per issued prompt), the TTS response, and moviepy's
audio loading. -/
structure CapabilityEnv where
  textResp : String → HFTextResponse
  ttsResp : HFTTSResponse
  loadAudio : String → AudioClipT

/-- The observable artifacts of one run of the module-level pipeline:
which values were produced and shown, plus whether `generate_final_video`
was invoked at all. -/
structure RunArtifacts where
  imagePath : String
  caption : Option String
  emotion : Option String
  story : Option String
  audio : Option String
  video : Option String
  description : Option String
  videoComposerInvoked : Bool
deriving DecidableEq

/-- The module-level pipeline run (app.py lines 129-170): save the
upload under `outputs/<name>`, caption, sample colour and classify
emotion, generate the story, synthesize speech; only when `audio_path`
is truthy, compose the video and generate the description.  Returns the
artifacts and the final filesystem. -/
def run_pipeline (uploaded : DrawingImage) (color : Nat × Nat × Nat)
    (env : CapabilityEnv) (fs : FileSystem) : RunArtifacts × FileSystem :=
  let image_path := "outputs/" ++ uploaded.name
  let fs1 := writeFile fs image_path uploaded.content
  let caption := (get_caption uploaded env.textResp).text
  let emotion := infer_emotion_from_color color
  let story := (generate_story caption emotion env.textResp).text
  let ttsOut := hf_tts story env.ttsResp fs1 hf_tts_default_output_path
  match ttsOut.result with
  | some audio_path =>
    let vid := generate_final_video env.loadAudio image_path audio_path
      generate_final_video_default_output_path
    let desc := auto_generate_description caption emotion story
    (⟨image_path, some caption, some emotion, some story, some audio_path,
      some vid.2, desc, true⟩, ttsOut.fs)
  | none =>
    (⟨image_path, some caption, some emotion, some story, none, none, none, false⟩,
      ttsOut.fs)

/-- Terminal pipeline outcomes (spec section 4.8). -/
inductive RunOutcome
  | Succeeded
  | PartiallySucceeded
  | Failed
deriving Repr, DecidableEq

/-- Classify a finished run per the spec glossary: `Succeeded` when all
of caption, story, audio and video were produced, `PartiallySucceeded`
when some but not all were, `Failed` when none was. -/
def run_outcome (a : RunArtifacts) : RunOutcome :=
  if a.caption.isSome ∧ a.story.isSome ∧ a.audio.isSome ∧ a.video.isSome then
    RunOutcome.Succeeded
  else if a.caption.isSome ∨ a.story.isSome ∨ a.audio.isSome ∨ a.video.isSome then
    RunOutcome.PartiallySucceeded
  else
    RunOutcome.Failed

/-- Parameters of a `requests.post` call as the two helpers issue it:
the URL, whether the bearer-token header is attached, whether a JSON
body is passed, and the `timeout` argument (`none`: no timeout passed,
the call may wait indefinitely). -/
structure PostRequest where
  url : String
  hasAuthHeader : Bool
  hasJsonBody : Bool
  timeout : Option ℚ
deriving Repr, DecidableEq

/-- The `requests.post` call `hf_text_generation` issues (app.py line
29): URL from the model name, auth header, JSON payload with
`wait_for_model`, and no `timeout` argument. -/
def hf_text_generation_request (model : String) : PostRequest :=
  ⟨"https://api-inference.huggingface.co/models/" ++ model, true, true, none⟩

/-- The `requests.post` call `hf_tts` issues (app.py line 47): URL from
the model name and auth header; the `payload` built on line 46 is never
passed to `post`, and no `timeout` argument is given. -/
def hf_tts_request (model : String) : PostRequest :=
  ⟨"https://api-inference.huggingface.co/models/" ++ model, true, false, none⟩

/-! Helper lemmas and concrete environments. -/

/-- The empty filesystem. -/
def emptyFS : FileSystem := fun _ => none

/-- `splitLines` never returns the empty list. -/
theorem splitLines_ne_nil (l : List Char) : splitLines l ≠ [] := by
  induction l with
  | nil => simp [splitLines]
  | cons c cs ih =>
    simp only [splitLines]
    split
    · simp
    · split <;> simp

/-- `py_split_newline` never returns the empty list: Python
`s.split("\n")` always has a first element. -/
theorem py_split_newline_ne_nil (s : String) : py_split_newline s ≠ [] := by
  unfold py_split_newline
  intro h
  exact splitLines_ne_nil s.data (List.map_eq_nil_iff.mp h)

/-! Claim theorems. -/

/-- C2: for every audio input, the video `generate_final_video` encodes
has duration exactly the audio clip's duration, carries exactly that
audio clip as its audio track, and is written at the fixed frame rate
24 fps. -/
theorem video_duration_matches_audio (loadAudio : String → AudioClipT)
    (image_path audio_path output_path : String) :
    ((generate_final_video loadAudio image_path audio_path output_path).1.clip.duration
      = some (loadAudio audio_path).duration) ∧
    ((generate_final_video loadAudio image_path audio_path output_path).1.clip.audio
      = some (loadAudio audio_path)) ∧
    (generate_final_video loadAudio image_path audio_path output_path).1.fps = 24 :=
  ⟨rfl, rfl, rfl⟩

/-- C3: for every RGB triple with channels in 0..255,
`infer_emotion_from_color` returns a label from the fixed vocabulary,
and any second call on an equal triple returns the same label. -/
theorem emotion_classifier_total_deterministic (r g b : Nat)
    (h : r ≤ 255 ∧ g ≤ 255 ∧ b ≤ 255) (c2 : Nat × Nat × Nat)
    (h2 : c2 = (r, g, b)) :
    infer_emotion_from_color (r, g, b) ∈ emotion_vocabulary ∧
    infer_emotion_from_color (r, g, b) = infer_emotion_from_color c2 := by
  subst h2
  refine ⟨?_, rfl⟩
  unfold infer_emotion_from_color emotion_vocabulary
  dsimp only
  split_ifs <;> simp

/-- Witness for C3 at the concrete triple (220, 40, 30). -/
theorem emotion_classifier_total_deterministic_witness :
    infer_emotion_from_color (220, 40, 30) ∈ emotion_vocabulary ∧
    infer_emotion_from_color (220, 40, 30) = infer_emotion_from_color (220, 40, 30) :=
  emotion_classifier_total_deterministic 220 40 30 (by decide) (220, 40, 30) rfl

/-- C4: `get_caption` does not depend on the uploaded image — any two
images yield identical results against the same capability — and the
prompt it issues is the fixed string "Describe this drawing: ". -/
theorem caption_image_noninterference (i1 i2 : DrawingImage)
    (capability : String → HFTextResponse) :
    get_caption i1 capability = get_caption i2 capability ∧
    get_caption i1 capability
      = hf_text_generation caption_prompt (capability caption_prompt) ∧
    caption_prompt = "Describe this drawing: " :=
  ⟨rfl, rfl, rfl⟩

/-- C5: the scenario table of the classifier: (220, 40, 30) maps to
"excited", (30, 40, 220) to "calm", (30, 200, 40) to "happy". -/
theorem emotion_classifier_scenarios :
    infer_emotion_from_color (220, 40, 30) = "excited" ∧
    infer_emotion_from_color (30, 40, 220) = "calm" ∧
    infer_emotion_from_color (30, 200, 40) = "happy" := by
  refine ⟨by decide, by decide, by decide⟩

/-- C8: `auto_generate_description` is total — the modelled `IndexError`
on `story.strip().split("\n")[0]` can never fire — and a story that
strips to the empty string yields the empty summary, not an error. -/
theorem description_composer_total (caption emotion story : String) :
    (auto_generate_description caption emotion story).isSome ∧
    (py_strip story = "" → story_summary story = some "") := by
  constructor
  · unfold auto_generate_description story_summary
    cases h : py_split_newline (py_strip story) with
    | nil => exact absurd h (py_split_newline_ne_nil (py_strip story))
    | cons a as => simp [h]
  · intro h
    unfold story_summary
    rw [h]
    rfl

/-- Witness for C8 at a whitespace-only story. -/
theorem description_composer_total_witness :
    (auto_generate_description "A red house" "happy" "  ").isSome ∧
    story_summary "  " = some "" :=
  ⟨(description_composer_total "A red house" "happy" "  ").1,
   (description_composer_total "A red house" "happy" "  ").2 (by decide)⟩

/-- C10: when the TTS response is not HTTP 200, `hf_tts` returns `None`
and the filesystem is untouched: nothing is written at the output
path. -/
theorem tts_failure_atomic (text : String) (resp : HFTTSResponse)
    (fs : FileSystem) (output_path : String) (h : resp.status ≠ 200) :
    (hf_tts text resp fs output_path).result = none ∧
    (hf_tts text resp fs output_path).fs = fs := by
  unfold hf_tts
  rw [if_neg h]
  exact ⟨rfl, rfl⟩

/-- Witness for C10 at a concrete 503 response. -/
theorem tts_failure_atomic_witness :
    (hf_tts "hello" ⟨503, []⟩ emptyFS hf_tts_default_output_path).result = none ∧
    (hf_tts "hello" ⟨503, []⟩ emptyFS hf_tts_default_output_path).fs = emptyFS :=
  tts_failure_atomic "hello" ⟨503, []⟩ emptyFS hf_tts_default_output_path (by decide)

/-- A capability environment whose text generation succeeds and whose
TTS call fails with HTTP 503. -/
def ttsFailEnv : CapabilityEnv :=
  ⟨fun _ => ⟨200, some "A story.\nThe end."⟩, ⟨503, []⟩, fun p => ⟨p, 3⟩⟩

/-- A capability environment in which every call succeeds. -/
def allOkEnv : CapabilityEnv :=
  ⟨fun _ => ⟨200, some "A story.\nThe end."⟩, ⟨200, [1, 2, 3]⟩, fun p => ⟨p, 3⟩⟩

/-- A capability environment whose caption call returns HTTP 500. -/
def captionFailEnv : CapabilityEnv :=
  ⟨fun _ => ⟨500, none⟩, ⟨200, [1, 2, 3]⟩, fun p => ⟨p, 3⟩⟩

/-- A run whose caption artifact exists is not classified `Failed`. -/
theorem run_outcome_ne_failed_of_caption (a : RunArtifacts)
    (h : a.caption.isSome) : run_outcome a ≠ RunOutcome.Failed := by
  unfold run_outcome
  split
  · simp
  · split
    · simp
    · next h2 => exact absurd (Or.inl h) h2

/-- C1 counterexample: in a run whose TTS stage fails (audio absent),
the description artifact is also absent, contrary to the claim that
caption, story and description are all present. -/
theorem skip_invariant_description_counterexample :
    (run_pipeline ⟨"a.png", []⟩ (0, 0, 0) ttsFailEnv emptyFS).1.audio = none ∧
    (run_pipeline ⟨"a.png", []⟩ (0, 0, 0) ttsFailEnv emptyFS).1.description = none :=
  ⟨rfl, rfl⟩

/-- C1 (amended): when the TTS stage fails, `generate_final_video` is
never invoked and the run ends `PartiallySucceeded` with audio, video
AND description absent, while caption and story are present. -/
theorem skip_invariant_on_tts_failure (u : DrawingImage) (c : Nat × Nat × Nat)
    (env : CapabilityEnv) (fs : FileSystem) (h : env.ttsResp.status ≠ 200) :
    (run_pipeline u c env fs).1.videoComposerInvoked = false ∧
    (run_pipeline u c env fs).1.audio = none ∧
    (run_pipeline u c env fs).1.video = none ∧
    (run_pipeline u c env fs).1.description = none ∧
    ((run_pipeline u c env fs).1.caption).isSome ∧
    ((run_pipeline u c env fs).1.story).isSome ∧
    run_outcome (run_pipeline u c env fs).1 = RunOutcome.PartiallySucceeded := by
  unfold run_pipeline run_outcome
  simp [hf_tts, h]

/-- Witness for C1 (amended) at the concrete failing environment. -/
theorem skip_invariant_on_tts_failure_witness :
    (run_pipeline ⟨"a.png", []⟩ (0, 0, 0) ttsFailEnv emptyFS).1.videoComposerInvoked = false ∧
    (run_pipeline ⟨"a.png", []⟩ (0, 0, 0) ttsFailEnv emptyFS).1.audio = none ∧
    (run_pipeline ⟨"a.png", []⟩ (0, 0, 0) ttsFailEnv emptyFS).1.video = none ∧
    (run_pipeline ⟨"a.png", []⟩ (0, 0, 0) ttsFailEnv emptyFS).1.description = none ∧
    ((run_pipeline ⟨"a.png", []⟩ (0, 0, 0) ttsFailEnv emptyFS).1.caption).isSome ∧
    ((run_pipeline ⟨"a.png", []⟩ (0, 0, 0) ttsFailEnv emptyFS).1.story).isSome ∧
    run_outcome (run_pipeline ⟨"a.png", []⟩ (0, 0, 0) ttsFailEnv emptyFS).1
      = RunOutcome.PartiallySucceeded :=
  skip_invariant_on_tts_failure ⟨"a.png", []⟩ (0, 0, 0) ttsFailEnv emptyFS (by decide)

/-- C6 counterexample: on a parse failure (HTTP 200 whose body fails to
parse), `get_caption` falls back to the prompt but surfaces NO warning,
contrary to the claim that a warning is surfaced on every failure. -/
theorem caption_fallback_warning_counterexample :
    (get_caption ⟨"a.png", []⟩ (fun _ => ⟨200, none⟩)).text = caption_prompt ∧
    (get_caption ⟨"a.png", []⟩ (fun _ => ⟨200, none⟩)).warnings = [] :=
  ⟨rfl, rfl⟩

/-- C6 (amended): whenever the caption capability fails (non-200 status
or parse failure), `get_caption` returns the non-empty fixed prompt as
fallback without raising, the run's caption artifact is that fallback
and the run is not classified `Failed`; a warning is surfaced in the
non-200 case (the parse-failure case is silent). -/
theorem caption_fallback (u : DrawingImage) (c : Nat × Nat × Nat)
    (env : CapabilityEnv) (fs : FileSystem)
    (h : (env.textResp caption_prompt).status ≠ 200 ∨
      (env.textResp caption_prompt).parsed = none) :
    (get_caption u env.textResp).text = caption_prompt ∧
    caption_prompt ≠ "" ∧
    (run_pipeline u c env fs).1.caption = some caption_prompt ∧
    run_outcome (run_pipeline u c env fs).1 ≠ RunOutcome.Failed ∧
    ((env.textResp caption_prompt).status ≠ 200 →
      (get_caption u env.textResp).warnings ≠ []) := by
  have htext : (get_caption u env.textResp).text = caption_prompt := by
    unfold get_caption hf_text_generation
    rcases h with h | h
    · rw [if_neg h]
    · split
      · rw [h]
      · rfl
  have hcap : (run_pipeline u c env fs).1.caption = some (get_caption u env.textResp).text := by
    unfold run_pipeline
    dsimp only
    split <;> rfl
  refine ⟨htext, by decide, ?_, ?_, ?_⟩
  · rw [hcap, htext]
  · apply run_outcome_ne_failed_of_caption
    rw [hcap]
    rfl
  · intro h200
    unfold get_caption hf_text_generation
    rw [if_neg h200]
    simp

/-- Witness for C6 (amended) at the concrete HTTP 500 environment. -/
theorem caption_fallback_witness :
    (get_caption ⟨"a.png", []⟩ captionFailEnv.textResp).text = caption_prompt ∧
    caption_prompt ≠ "" ∧
    (run_pipeline ⟨"a.png", []⟩ (0, 0, 0) captionFailEnv emptyFS).1.caption
      = some caption_prompt ∧
    run_outcome (run_pipeline ⟨"a.png", []⟩ (0, 0, 0) captionFailEnv emptyFS).1
      ≠ RunOutcome.Failed ∧
    ((captionFailEnv.textResp caption_prompt).status ≠ 200 →
      (get_caption ⟨"a.png", []⟩ captionFailEnv.textResp).warnings ≠ []) :=
  caption_fallback ⟨"a.png", []⟩ (0, 0, 0) captionFailEnv emptyFS (Or.inl (by decide))

/-- C7 counterexample: neither helper passes any timeout to
`requests.post` — the claim that every external call carries a finite
upper-bound wait fails already for the calls the app makes, with
`model="gpt2"` and `model="tts_transformer"`. -/
theorem external_calls_timeout_counterexample :
    ¬ ((hf_text_generation_request "gpt2").timeout.isSome ∧
      (hf_tts_request "tts_transformer").timeout.isSome) := by
  simp [hf_text_generation_request, hf_tts_request]

/-- C7 (amended): every external capability call the pipeline issues is
made WITHOUT a timeout argument — no upper-bound wait is enforced, so a
stage can block indefinitely on the capability. -/
theorem external_calls_no_timeout (model1 model2 : String) :
    (hf_text_generation_request model1).timeout = none ∧
    (hf_tts_request model2).timeout = none :=
  ⟨rfl, rfl⟩

/-- C9 counterexample: two distinct uploads run against the same
environment still write their audio and video artifacts to the same
paths: the defaults are shared constants, not namespaced per run. -/
theorem artifact_paths_collide_counterexample :
    (⟨"a.png", [0]⟩ : DrawingImage) ≠ ⟨"b.png", [1]⟩ ∧
    (run_pipeline ⟨"a.png", [0]⟩ (0, 0, 0) allOkEnv emptyFS).1.audio
      = (run_pipeline ⟨"b.png", [1]⟩ (0, 0, 0) allOkEnv emptyFS).1.audio ∧
    (run_pipeline ⟨"a.png", [0]⟩ (0, 0, 0) allOkEnv emptyFS).1.video
      = (run_pipeline ⟨"b.png", [1]⟩ (0, 0, 0) allOkEnv emptyFS).1.video ∧
    ((run_pipeline ⟨"a.png", [0]⟩ (0, 0, 0) allOkEnv emptyFS).1.audio).isSome := by
  refine ⟨by decide, rfl, rfl, rfl⟩

/-- C9 (amended): artifact paths are NOT namespaced per run: every run
with a successful TTS stage uses the fixed audio path
"outputs/audio.wav" and the fixed video path "outputs/final_video.mp4",
and the image copy goes to "outputs/" ++ name, which collides whenever
two runs upload files of the same name. -/
theorem artifact_paths_shared (u : DrawingImage) (c : Nat × Nat × Nat)
    (env : CapabilityEnv) (fs : FileSystem) (h : env.ttsResp.status = 200) :
    (run_pipeline u c env fs).1.audio = some hf_tts_default_output_path ∧
    (run_pipeline u c env fs).1.video = some generate_final_video_default_output_path ∧
    (run_pipeline u c env fs).1.imagePath = "outputs/" ++ u.name := by
  unfold run_pipeline generate_final_video
  simp [hf_tts, h]

/-- Witness for C9 (amended) at a concrete successful run. -/
theorem artifact_paths_shared_witness :
    (run_pipeline ⟨"a.png", [0]⟩ (0, 0, 0) allOkEnv emptyFS).1.audio
      = some hf_tts_default_output_path ∧
    (run_pipeline ⟨"a.png", [0]⟩ (0, 0, 0) allOkEnv emptyFS).1.video
      = some generate_final_video_default_output_path ∧
    (run_pipeline ⟨"a.png", [0]⟩ (0, 0, 0) allOkEnv emptyFS).1.imagePath
      = "outputs/" ++ (⟨"a.png", [0]⟩ : DrawingImage).name :=
  artifact_paths_shared ⟨"a.png", [0]⟩ (0, 0, 0) allOkEnv emptyFS (by decide)

end DreamCanvas
